import Mathlib

/-!
Verification of the wisdom-tree session orchestrator (`wisdom_tree/main.py`)
against its natural-language specification.

The development is a shallow embedding of the curses front end in
`wisdom_tree/main.py`: the mutable fields of the `tree` object (plus the
module-level globals) become a Lean structure, and each key handler and
per-frame method becomes a pure state-transition function.  Wall-clock
values (`time.time()`) are rationals; the truncation `int(...)` applied to
them throughout the source is `pyInt`.  Side effects on the VLC media
handle are modelled by explicit fields (`mediaPlaying`, `mediaTime`,
`mediaLength`, `mediaSource`), and sound-effect playback by returning the
list of cue files played.
-/

namespace WisdomTree

/-- Python `int(q)` on a float: truncation toward zero.  On the nonnegative
wall-clock values used by the program this is the floor. -/
def pyInt (q : ℚ) : ℤ := if 0 ≤ q then ⌊q⌋ else -⌊-q⌋

theorem pyInt_of_nonneg {q : ℚ} (h : 0 ≤ q) : pyInt q = ⌊q⌋ := if_pos h

theorem pyInt_intCast (n : ℤ) : pyInt (n : ℚ) = n := by
  unfold pyInt
  split
  · exact Int.floor_intCast n
  · rw [show -((n : ℚ)) = ((-n : ℤ) : ℚ) by push_cast; ring, Int.floor_intCast]
    ring

/-! ### Module-level constants of `wisdom_tree/main.py` -/

/-- `ALARM_SOUND` (path shortened to the file name). -/
def ALARM_SOUND : String := "alarm.wav"

/-- `TIMER_START_SOUND`. -/
def TIMER_START_SOUND : String := "timerstart.wav"

/-- `GROWTH_SOUND` (the file name really is `growth.waw` in the source). -/
def GROWTH_SOUND : String := "growth.waw"

/-- `TIMER_WORK_MINS = (20, 20, 40, 50)`. -/
def TIMER_WORK_MINS : List ℤ := [20, 20, 40, 50]

/-- `TIMER_BREAK_MINS = (20, 10, 20, 10)`. -/
def TIMER_BREAK_MINS : List ℤ := [20, 10, 20, 10]

/-- `TIMER_WORK`: work durations in seconds. -/
def TIMER_WORK : List ℤ := TIMER_WORK_MINS.map (· * 60)

/-- `TIMER_BREAK`: break durations in seconds. -/
def TIMER_BREAK : List ℤ := TIMER_BREAK_MINS.map (· * 60)

/-- `tree.timerlist` (the `.format` calls applied). -/
def timerlist : List String :=
  [" POMODORO 20+20 ", " POMODORO 20+10 ", " POMODORO 40+20 ", " POMODORO 50+10 ",
   " CUSTOM TIMER ", " END TIMER NOW "]

/-- `tree.featurelist`. -/
def featurelist : List String :=
  [" PLAY MUSIC FROM YOUTUBE ", " LOFI RADIO 1 ", " LOFI RADIO 2 ", " LOFI RADIO 3 ",
   " CUSTOM PLAYLIST "]

/-! ### Sound effects: `play_sound` / `toggle_sounds` -/

/-- `play_sound(sound)`: returns whether the cue is actually played, given the
`SOUNDS_MUTED` global.  The source returns early (plays nothing) iff
`SOUNDS_MUTED and sound != ALARM_SOUND`. -/
def play_sound (sounds_muted : Bool) (sound : String) : Bool :=
  if sounds_muted = true ∧ sound ≠ ALARM_SOUND then false else true

/-- `toggle_sounds()`: flips the `SOUNDS_MUTED` global. -/
def toggle_sounds (sounds_muted : Bool) : Bool := !sounds_muted

/-! ### Volume key handlers -/

/-- Key `"]"` handler: `new_volume = volume + 1; audio_set_volume(min(100, new_volume))`.
Returns the volume value the code hands to the player. -/
def volumeUpRequest (v : ℤ) : ℤ := min 100 (v + 1)

/-- Key `"["` handler: `new_volume = volume - 1; audio_set_volume(min(100, new_volume))`.
Returns the volume value the code hands to the player (note: the source
applies `min 100`, not a lower clamp, in this direction too). -/
def volumeDownRequest (v : ℤ) : ℤ := min 100 (v - 1)

/-- Key `"}"` handler: `effect_volume = min(100, effect_volume + 1)`. -/
def effectVolumeUp (e : ℤ) : ℤ := min 100 (e + 1)

/-- Key `"{"` handler: `effect_volume = max(0, effect_volume - 1)`. -/
def effectVolumeDown (e : ℤ) : ℤ := max 0 (e - 1)

/-! ### Growth visualisation: the art-file selection in `tree.display` -/

/-- The chain of `if` statements at the top of `tree.display` that assigns
`self.artfile` from `self.age`.  `prev` is the value `self.artfile` had
before the call (the attribute does not exist on the first call, hence
`Option`); each `if` overwrites it when its guard holds. -/
def displayArtfile (prev : Option String) (age : ℚ) : Option String :=
  let a1 := if 1 ≤ age ∧ age < 5 then some "p1.txt" else prev
  let a2 := if 5 ≤ age ∧ age < 10 then some "p2.txt" else a1
  let a3 := if 10 ≤ age ∧ age < 20 then some "p3.txt" else a2
  let a4 := if 20 ≤ age ∧ age < 30 then some "p4.txt" else a3
  let a5 := if 30 ≤ age ∧ age < 40 then some "p5.txt" else a4
  let a6 := if 40 ≤ age ∧ age < 70 then some "p6.txt" else a5
  let a7 := if 70 ≤ age ∧ age < 120 then some "p7.txt" else a6
  let a8 := if 120 ≤ age ∧ age < 200 then some "p8.txt" else a7
  if 200 ≤ age then some "p9.txt" else a8

/-- Position of an art file in the ordered nine-tier ladder
(`p1.txt` … `p9.txt`); `0` for anything else (no tier). -/
def artIndex (o : Option String) : ℕ :=
  if o = some "p1.txt" then 1
  else if o = some "p2.txt" then 2
  else if o = some "p3.txt" then 3
  else if o = some "p4.txt" then 4
  else if o = some "p5.txt" then 5
  else if o = some "p6.txt" then 6
  else if o = some "p7.txt" then 7
  else if o = some "p8.txt" then 8
  else if o = some "p9.txt" then 9
  else 0

/-- Number of band thresholds of `tree.display` at or below `age`:
the index of the band `age` falls in (0 = below every band). -/
def bandIdx (a : ℚ) : ℕ :=
  (if 1 ≤ a then 1 else 0) + (if 5 ≤ a then 1 else 0) + (if 10 ≤ a then 1 else 0) +
  (if 20 ≤ a then 1 else 0) + (if 30 ≤ a then 1 else 0) + (if 40 ≤ a then 1 else 0) +
  (if 70 ≤ a then 1 else 0) + (if 120 ≤ a then 1 else 0) + (if 200 ≤ a then 1 else 0)

/-! ### The session state: class `tree` plus the relevant globals -/

/-- What the current VLC media handle is playing. -/
inductive MediaSource
  /-- A track of the local playlist `tree.music_list`, by index. -/
  | localTrack : ℤ → MediaSource
  /-- A resolved remote stream. -/
  | remote : String → MediaSource
  deriving DecidableEq

/-- The mutable state of a `tree` instance (the fields the claims touch),
plus the state of its VLC media handle. -/
structure TreeState where
  age : ℚ
  showtimer : Bool
  currentmenu : String
  selectedtimer : ℤ
  istimer : Bool
  isbreak : Bool
  breakover : Bool
  timerhidetime : ℤ
  worktime : ℤ
  breaktime : ℤ
  workendtime : ℚ
  breakendtime : ℤ
  isnotify : Bool
  notifystring : String
  notifyendtime : ℤ
  invert : Bool
  playlist : String
  radiomode : Bool
  isloading : Bool
  isloop : Bool
  youtubedisplay : Bool
  downloaddisplay : Bool
  breakendtext : String
  pause : Bool
  pausetime : ℚ
  musicListNum : ℤ
  lofilink : String
  mediaPlaying : Bool
  mediaTime : ℤ
  mediaLength : ℤ
  mediaSource : MediaSource
  deriving DecidableEq

/-! ### TimerEngine: `tree.starttimer`, `tree.timer`, `tree.breakstart` -/

/-- `tree.starttimer(inputtime, stdscr, maxx)`.  For the custom timer
(`inputtime == 4`) the two blocking `int(stdscr.getstr())` reads are
modelled by `workIn`/`breakIn`: `some n` when the typed text parses as the
integer `n`, `none` when `int(...)` raises `ValueError` (non-numeric text).
The source reads the work length first, so a `ValueError` on the break
length leaves `worktime` already assigned; the `return 0` in the `except`
branch skips the final `workendtime` assignment.  In the `inputtime == 5`
branch the source line `self.istimer == False` is a comparison, not an
assignment, so `istimer` is left unchanged there. -/
def starttimer (s : TreeState) (inputtime : ℤ) (workIn breakIn : Option ℤ) (now : ℚ) :
    TreeState :=
  if inputtime = 5 then
    let s1 := { s with breakendtext := "TIMER IS OVER, PRESS ENTER",
                       worktime := 0, breaktime := 0 }
    { s1 with workendtime := ((pyInt now + s1.worktime : ℤ) : ℚ) }
  else if inputtime = 4 then
    match workIn with
    | none =>
        { s with notifystring := "VALUE ERROR, PLEASE ENTER AN INTEGER",
                 notifyendtime := pyInt now + 5, isnotify := true }
    | some w =>
      match breakIn with
      | none =>
          { s with worktime := w * 60,
                   notifystring := "VALUE ERROR, PLEASE ENTER AN INTEGER",
                   notifyendtime := pyInt now + 5, isnotify := true }
      | some b =>
          let s1 := { s with worktime := w * 60, breaktime := b * 60, istimer := true }
          { s1 with workendtime := ((pyInt now + s1.worktime : ℤ) : ℚ) }
  else
    let s1 := { s with breakendtext := "BREAK IS OVER, PRESS ENTER TO START NEW TIMER",
                       istimer := true,
                       worktime := TIMER_WORK.getD inputtime.toNat 0,
                       breaktime := TIMER_BREAK.getD inputtime.toNat 0 }
    { s1 with workendtime := ((pyInt now + s1.worktime : ℤ) : ℚ) }

/-- `tree.breakstart()`: alarm cue, pause the audio if playing, set the
break deadline, leave `Working` and enter the break.  The second component
is the list of sound cues handed to `play_sound`. -/
def breakstart (s : TreeState) (now : ℚ) : TreeState × List String :=
  if s.istimer = true then
    ({ s with mediaPlaying := false,
              breakendtime := pyInt now + s.breaktime,
              istimer := false,
              isbreak := true }, [ALARM_SOUND])
  else (s, [])

/-- `tree.timer()`: the once-per-frame timer check
`if self.istimer and int(time.time()) == int(self.workendtime): self.breakstart()`. -/
def timerStep (s : TreeState) (now : ℚ) : TreeState × List String :=
  if s.istimer = true ∧ pyInt now = pyInt s.workendtime then breakstart s now else (s, [])

/-! ### MenuModel: the arrow-key handlers and the clamp in `tree.menudisplay` -/

/-- `KEY_UP` / `"k"` handler in `key_events`. -/
def keyUp (s : TreeState) (now : ℚ) : TreeState :=
  { s with showtimer := true, selectedtimer := s.selectedtimer - 1,
           timerhidetime := pyInt now + 5 }

/-- `KEY_DOWN` / `"j"` handler in `key_events`. -/
def keyDown (s : TreeState) (now : ℚ) : TreeState :=
  { s with showtimer := true, selectedtimer := s.selectedtimer + 1,
           timerhidetime := pyInt now + 5 }

/-- The shift common to the two arrow-key handlers, generalised to an
arbitrary delta (`keyUp` is `delta = -1`, `keyDown` is `delta = 1`):
the specification calls this `move(delta)`. -/
def menuNav (s : TreeState) (delta : ℤ) (now : ℚ) : TreeState :=
  { s with showtimer := true, selectedtimer := s.selectedtimer + delta,
           timerhidetime := pyInt now + 5 }

/-- The two saturation statements `tree.menudisplay` applies to
`selectedtimer` for a list of length `len`. -/
def clampIdx (i len : ℤ) : ℤ :=
  let i1 := if i > len - 1 then len - 1 else i
  if i1 < 0 then 0 else i1

/-- The state mutation performed by `tree.menudisplay`: when the menu is
shown, clamp `selectedtimer` into the active list (length 6 for the timer
list, 5 for the feature list). -/
def menudisplayClamp (s : TreeState) : TreeState :=
  if s.showtimer = true then
    let s1 := if s.currentmenu = "timer" then
                { s with selectedtimer := clampIdx s.selectedtimer (timerlist.length : ℤ) }
              else s
    if s1.currentmenu = "feature" then
      { s1 with selectedtimer := clampIdx s1.selectedtimer (featurelist.length : ℤ) }
    else s1
  else s

/-- One menu move as it plays out over a frame: the key handler shifts the
index, the next `menudisplay` call clamps it. -/
def moveClamped (s : TreeState) (delta : ℤ) (now : ℚ) : TreeState :=
  menudisplayClamp (menuNav s delta now)

theorem keyUp_eq_menuNav (s : TreeState) (now : ℚ) : keyUp s now = menuNav s (-1) now := by
  simp [keyUp, menuNav, sub_eq_add_neg]

theorem keyDown_eq_menuNav (s : TreeState) (now : ℚ) : keyDown s now = menuNav s 1 now := rfl

/-! ### AudioOrchestrator: radio mode and remote resolution -/

/-- `tree.lofiradio()`: the entry point for a radio resolution request.
Returns the updated state and whether a background resolution worker was
spawned.  A request while `isloading` is set returns immediately with no
state change. -/
def lofiradio (s : TreeState) : TreeState × Bool :=
  if s.isloading = true then (s, false)
  else ({ s with mediaPlaying := false, isloading := true, radiomode := true }, true)

/-- The `"n"` key handler in `key_events`:
`if not tree1.isloading and key == ord("n"): tree1.lofiradio()`. -/
def keyN (s : TreeState) : TreeState × Bool :=
  if s.isloading = false then lofiradio s else (s, false)

/-- `tree.featureselect(inputfeature, maxx, stdscr)`.  `playlistInput` is
the text typed at the `CUSTOM PLAYLIST` prompt.  Second component: whether
a radio resolution worker was spawned by the call. -/
def featureselect (s : TreeState) (inputfeature : ℤ) (playlistInput : String) :
    TreeState × Bool :=
  let s0 := { s with radiomode := false }
  if inputfeature = 0 then
    ({ s0 with mediaPlaying := false, youtubedisplay := true }, false)
  else if inputfeature = 1 then
    lofiradio { s0 with playlist := "https://www.youtube.com/watch?v=oPVte6aMprI" }
  else if inputfeature = 2 then
    lofiradio { s0 with playlist :=
      "https://www.youtube.com/playlist?list=PL0ONFXpPDe_mtm3ciwL-v7EE-7yLHDlP8" }
  else if inputfeature = 3 then
    lofiradio { s0 with playlist :=
      "https://www.youtube.com/playlist?list=PLKYTmz7SemaqVDF6XJ15bv_8-j7ckkNgb" }
  else if inputfeature = 4 then
    lofiradio { s0 with playlist := playlistInput }
  else (s0, false)

/-- The state mutation of `tree.youtube`: when `youtubedisplay` is set, read
a query (`songinput`); unless it is `"q"`, spawn a `playyoutube` resolution
worker and show the download spinner.  Second component: whether a
resolution worker was spawned. -/
def youtubeStep (s : TreeState) (songinput : String) : TreeState × Bool :=
  if s.youtubedisplay = true then
    if songinput ≠ "q" then
      ({ s with downloaddisplay := true, youtubedisplay := false }, true)
    else ({ s with youtubedisplay := false }, false)
  else (s, false)

/-- `tree.getlofisong()`, run on the radio worker thread.  The whole body is
one `try`: picking `lofilink = random.choice(self.playlist.video_urls)` and
resolving it to a stream URL.  `resolve = some (link, url)` models the
network fetch succeeding with those values; `resolve = none` models any
exception.  On exception the source notifies, clears `radiomode` and
`isloading`, and calls `exit()` — the worker dies and the second component
is `none`: no retry of any kind is attempted. -/
def getlofisong (s : TreeState) (resolve : Option (String × String)) (now : ℚ) :
    TreeState × Option String :=
  match resolve with
  | some (link, url) => ({ s with lofilink := link }, some url)
  | none =>
      ({ s with isloading := false,
                notifyendtime := pyInt now + 10,
                notifystring := "UNABLE TO CONNECT, PLEASE CHECK INTERNET CONNECTION",
                invert := false,
                isnotify := true,
                radiomode := false }, none)

/-! ### Transport: pause/resume, loop toggle, end-of-track -/

/-- The space-key handler in `key_events`: pause the audio if playing,
raise the `pause` flag and remember the (un-truncated) pause instant. -/
def pauseKey (s : TreeState) (now : ℚ) : TreeState :=
  { s with mediaPlaying := false, pause := true, pausetime := now }

/-- The space-key branch of the `while tree1.pause` loop in `main`:
clear the flag, resume the audio and, when a work timer is running, shift
`workendtime` forward by the elapsed suspended duration
(`tree1.workendtime += time.time() - tree1.pausetime`). -/
def resumeKey (s : TreeState) (now : ℚ) : TreeState :=
  let s1 := { s with pause := false, mediaPlaying := true }
  if s1.istimer = true then { s1 with workendtime := s1.workendtime + (now - s1.pausetime) }
  else s1

/-- The `"r"` key handler in `key_events`: toggle `isloop` and notify. -/
def keyR (s : TreeState) (now : ℚ) : TreeState :=
  let s1 := if s.isloop = true then { s with isloop := false } else { s with isloop := true }
  { s1 with notifyendtime := pyInt now + 2,
            notifystring := "REPEAT: " ++ (if s1.isloop then "True" else "False"),
            invert := false,
            isnotify := true }

/-- The end-of-track check in `main`: when the media is playing with less
than 1000 ms remaining, ask for the next radio track if in radio mode;
then, if `isloop` is set, seek the current handle back to the start
(`set_position(0)`), else discard the handle and start a fresh player on
`music_list[music_list_num]` — the playlist index is not changed here.
(The length/time of the freshly created handle belong to the new track and
are not modelled; `mediaTime` is reset to the start.) -/
def endOfTrackStep (s : TreeState) : TreeState :=
  if s.mediaPlaying = true ∧ s.mediaLength - s.mediaTime < 1000 then
    let s1 := if s.radiomode = true then (lofiradio s).1 else s
    if s1.isloop = true then { s1 with mediaTime := 0 }
    else { s1 with mediaSource := MediaSource.localTrack s1.musicListNum,
                   mediaTime := 0, mediaPlaying := true }
  else s

/-! ### Concrete states used to instantiate the theorems -/

/-- The state of a fresh `tree` instance right after `__init__` (age 1,
nothing running), used as the base for concrete scenarios. -/
def baseState : TreeState where
  age := 1
  showtimer := false
  currentmenu := "timer"
  selectedtimer := 0
  istimer := false
  isbreak := false
  breakover := false
  timerhidetime := 0
  worktime := 0
  breaktime := 0
  workendtime := 0
  breakendtime := 0
  isnotify := false
  notifystring := " "
  notifyendtime := 0
  invert := false
  playlist := "https://www.youtube.com/playlist?list=PL6fhs6TSspZvN45CPJApnMYVsWhkt55h7"
  radiomode := false
  isloading := false
  isloop := false
  youtubedisplay := false
  downloaddisplay := false
  breakendtext := "BREAK IS OVER, PRESS ENTER TO START NEW TIMER"
  pause := false
  pausetime := 0
  musicListNum := 0
  lofilink := ""
  mediaPlaying := false
  mediaTime := 0
  mediaLength := 0
  mediaSource := MediaSource.localTrack 0

/-- A state with a work timer running until `t = 100` and a 10-minute break
configured. -/
def st1 : TreeState :=
  { baseState with istimer := true, workendtime := (100 : ℚ), breaktime := 600 }

/-- A state with the timer menu shown and the first entry selected. -/
def st3 : TreeState :=
  { baseState with showtimer := true, currentmenu := "timer", selectedtimer := 0 }

/-- A state with the timer menu shown and the third entry selected. -/
def st3w : TreeState :=
  { baseState with showtimer := true, currentmenu := "timer", selectedtimer := 2 }

/-- A state with the feature menu shown and the third entry selected. -/
def st3f : TreeState :=
  { baseState with showtimer := true, currentmenu := "feature", selectedtimer := 2 }

/-- A state with a radio resolution worker in flight. -/
def st6 : TreeState :=
  { baseState with isloading := true, radiomode := true }

/-- A paused-audio state with a work timer running. -/
def st7 : TreeState :=
  { baseState with istimer := true, workendtime := (500 : ℚ), mediaPlaying := true }

/-- A non-radio, non-loop state whose third local track (index 2) has less
than a second left to play. -/
def st8 : TreeState :=
  { baseState with mediaPlaying := true, mediaTime := 99500, mediaLength := 100000,
                   musicListNum := 2, mediaSource := MediaSource.remote "someurl" }

/-! ## Claim C10: `play_sound` mute behaviour -/

/-- Claim C10 (confirmed): with the mute flag set, `play_sound` plays
nothing except the alarm sound, which always plays; with the flag clear
every sound plays; toggling the flag twice restores it. -/
theorem C10_play_sound_mute (sound : String) (m : Bool) :
    (play_sound true sound = true ↔ sound = ALARM_SOUND) ∧
    play_sound false sound = true ∧
    toggle_sounds (toggle_sounds m) = m := by
  refine ⟨?_, ?_, ?_⟩
  · unfold play_sound
    split_ifs with h <;> simp_all
  · simp [play_sound]
  · simp [toggle_sounds]

/-! ## Claim C4: volume clamping at the boundaries -/

/-- Claim C4 (code bug): the `"]"` handler clamps the requested volume to
100 and is idempotent there, but the `"["` handler applies `min 100` — not
a lower clamp — so at volume 0 it requests volume `-1` from the player
instead of 0.  The parallel effect-volume handlers (`"}"`/`"{"`) clamp at
both ends, which is what the claim describes. -/
theorem C4_volume_boundary_eval :
    volumeUpRequest 100 = 100 ∧ volumeDownRequest 0 = -1 ∧
    effectVolumeUp 100 = 100 ∧ effectVolumeDown 0 = 0 := by decide

/-! ## Claim C7: pause/resume shifts the work deadline -/

/-- Claim C7 (confirmed): suspending at `t0` during `Working` and resuming
at `t0 + d` shifts `workendtime` forward by exactly `d`. -/
theorem C7_pause_shifts_deadline (s : TreeState) (t0 d : ℚ) (hT : s.istimer = true) :
    (resumeKey (pauseKey s t0) (t0 + d)).workendtime = s.workendtime + d := by
  simp only [pauseKey, resumeKey]
  rw [if_pos hT]
  ring_nf

/-- Witness for C7 at a concrete state: pausing at `t = 10` and resuming at
`t = 17` moves the deadline from 500 to 507. -/
theorem C7_pause_shifts_deadline_witness :
    (resumeKey (pauseKey st7 10) (10 + 7)).workendtime = st7.workendtime + 7 :=
  C7_pause_shifts_deadline st7 10 7 rfl

/-! ## Claim C6: concurrent resolution requests -/

/-- Claim C6 counterexample: with a radio resolution already in flight
(`isloading` set), selecting the `PLAY MUSIC FROM YOUTUBE` feature is not
rejected — it mutates the state and the following `tree.youtube` frame
spawns a second resolution worker while `isloading` is still set, so two
fetches are in flight. -/
theorem C6_counterexample :
    st6.isloading = true ∧
    ((featureselect st6 0 "").1.youtubedisplay = true ∧ st6.youtubedisplay = false) ∧
    (youtubeStep (featureselect st6 0 "").1 "lofi beats").2 = true ∧
    (youtubeStep (featureselect st6 0 "").1 "lofi beats").1.isloading = true := by decide

/-- Claim C6 (corrected): a second radio resolution request (`lofiradio`,
reached from the `"n"` key or a radio feature) while the loading flag is
set is rejected synchronously, with no state change and no worker spawned;
requests through the YouTube play feature are not guarded this way. -/
theorem C6_amended (s : TreeState) (h : s.isloading = true) :
    lofiradio s = (s, false) ∧ keyN s = (s, false) := by
  simp [lofiradio, keyN, h]

/-- Witness for C6 at a concrete loading state. -/
theorem C6_amended_witness : lofiradio st6 = (st6, false) ∧ keyN st6 = (st6, false) :=
  C6_amended st6 rfl

/-! ## Claim C5: validation of `starttimer` input -/

/-- Claim C5 counterexample: from an idle state, a custom timer with the
negative inputs `-5` and `-1` is accepted: the timer starts
(`istimer = true`, `worktime = -300`) and no error notification is
raised. -/
theorem C5_counterexample :
    baseState.istimer = false ∧
    (starttimer baseState 4 (some (-5)) (some (-1)) 1000).istimer = true ∧
    (starttimer baseState 4 (some (-5)) (some (-1)) 1000).isnotify = false ∧
    (starttimer baseState 4 (some (-5)) (some (-1)) 1000).worktime = -300 := by decide

/-- Claim C5 (corrected): the custom-timer path of `starttimer` fails —
`VALUE ERROR` notification, timer flag and deadline untouched — exactly
when one of the two inputs is non-numeric; any parsed integers, including
negative ones, are accepted and start the timer. -/
theorem C5_amended (s : TreeState) (w b : ℤ) (bIn : Option ℤ) (now : ℚ) :
    ((starttimer s 4 none bIn now).istimer = s.istimer ∧
     (starttimer s 4 none bIn now).workendtime = s.workendtime ∧
     (starttimer s 4 none bIn now).isnotify = true ∧
     (starttimer s 4 none bIn now).notifystring = "VALUE ERROR, PLEASE ENTER AN INTEGER") ∧
    ((starttimer s 4 (some w) none now).istimer = s.istimer ∧
     (starttimer s 4 (some w) none now).workendtime = s.workendtime ∧
     (starttimer s 4 (some w) none now).isnotify = true ∧
     (starttimer s 4 (some w) none now).notifystring = "VALUE ERROR, PLEASE ENTER AN INTEGER") ∧
    ((starttimer s 4 (some w) (some b) now).istimer = true ∧
     (starttimer s 4 (some w) (some b) now).workendtime = ((pyInt now + w * 60 : ℤ) : ℚ) ∧
     (starttimer s 4 (some w) (some b) now).isnotify = s.isnotify) := by
  refine ⟨⟨?_, ?_, ?_, ?_⟩, ⟨?_, ?_, ?_, ?_⟩, ⟨?_, ?_, ?_⟩⟩ <;> simp [starttimer]

/-! ## Claim C8: end-of-track behaviour outside radio mode -/

/-- Claim C8 counterexample: at end of track with radio and loop off, the
player starts the entry at the *current* playlist index (2) again; it does
not advance to the next entry (3). -/
theorem C8_counterexample :
    st8.musicListNum = 2 ∧ st8.isloop = false ∧ st8.radiomode = false ∧
    (endOfTrackStep st8).mediaSource = MediaSource.localTrack 2 ∧
    (endOfTrackStep st8).musicListNum = 2 := by decide

/-- Claim C8 (corrected): when a playing track has under a second left and
radio mode is off: with the loop flag set the handle seeks back to the
start of the same track; with it clear a fresh player is started on the
local-playlist entry at the current index, which is left unchanged. -/
theorem C8_amended (s : TreeState)
    (hp : s.mediaPlaying = true) (hrem : s.mediaLength - s.mediaTime < 1000)
    (hr : s.radiomode = false) :
    (s.isloop = true → endOfTrackStep s = { s with mediaTime := 0 }) ∧
    (s.isloop = false →
      endOfTrackStep s = { s with mediaSource := MediaSource.localTrack s.musicListNum,
                                  mediaTime := 0, mediaPlaying := true }) := by
  constructor <;> intro hl <;> simp [endOfTrackStep, hp, hrem, hr, hl]

/-- Witness for C8: the concrete end-of-track state `st8` re-plays local
track 2. -/
theorem C8_amended_witness :
    endOfTrackStep st8 = { st8 with mediaSource := MediaSource.localTrack st8.musicListNum,
                                    mediaTime := 0, mediaPlaying := true } :=
  (C8_amended st8 rfl (by decide) rfl).2 rfl

/-! ## Claim C9: retry behaviour of radio resolution -/

/-- Claim C9 (code bug): `getlofisong` gives up on the first failure.  On
any exception it posts the `UNABLE TO CONNECT` notification, clears
`radiomode` and `isloading` and kills the worker with `exit()` — no new
random track is requested, even though the method carries a comment saying
it recurses to find a working link.  On success it returns the resolved
stream. -/
theorem C9_no_retry_eval :
    (getlofisong st6 none 1000).2 = none ∧
    (getlofisong st6 none 1000).1.radiomode = false ∧
    (getlofisong st6 none 1000).1.isloading = false ∧
    (getlofisong st6 none 1000).1.isnotify = true ∧
    (getlofisong st6 none 1000).1.notifystring =
      "UNABLE TO CONNECT, PLEASE CHECK INTERNET CONNECTION" ∧
    (getlofisong st6 (some ("link", "url")) 1000).2 = some "url" := by decide

/-! ## Claim C1: the work-to-break transition -/

/-- Claim C1 counterexample: with a work timer running until `t = 100`, a
tick at `t = 101` (which is `≥ 100`) does not transition to the break: the
guard in `tree.timer` compares `int(time.time())` to `int(workendtime)`
with `==`, so a tick strictly after the deadline second changes nothing. -/
theorem C1_counterexample :
    st1.istimer = true ∧ st1.workendtime = ((100 : ℤ) : ℚ) ∧ ((100 : ℚ) ≤ 101) ∧
    timerStep st1 101 = (st1, []) := by
  refine ⟨rfl, by norm_num [st1, baseState], by norm_num, ?_⟩
  have hne : pyInt (101 : ℚ) ≠ pyInt st1.workendtime := by decide
  simp [timerStep, hne]

/-- A tick is a no-op whenever the timer flag is down. -/
theorem timerStep_of_not_istimer (s : TreeState) (now : ℚ) (h : s.istimer = false) :
    timerStep s now = (s, []) := by
  unfold timerStep
  rw [if_neg]
  rintro ⟨hf, -⟩
  rw [h] at hf
  exact Bool.false_ne_true hf

/-- Claim C1 (corrected): with the timer in `Working` towards an integer
deadline `w`, a tick strictly before `w` changes nothing; a tick at a time
`now` whose truncated second equals `w` transitions to the break exactly
once — it clears `istimer`, sets `isbreak`, sets
`breakendtime = int(now) + breaktime`, pauses the audio and plays the
alarm cue, and every later tick of the resulting state is a no-op.  (Ticks
whose truncated second is strictly greater than `w` do not transition; the
preset branches of `starttimer` always leave the phase `Working`.) -/
theorem C1_amended (s : TreeState) (now : ℚ) (w : ℤ)
    (hT : s.istimer = true) (hw : s.workendtime = (w : ℚ)) (h0 : 0 ≤ now) :
    (now < (w : ℚ) → timerStep s now = (s, [])) ∧
    (pyInt now = w →
      (timerStep s now).1.istimer = false ∧
      (timerStep s now).1.isbreak = true ∧
      (timerStep s now).1.breakendtime = w + s.breaktime ∧
      (timerStep s now).1.mediaPlaying = false ∧
      (timerStep s now).2 = [ALARM_SOUND] ∧
      ∀ now2 : ℚ, timerStep (timerStep s now).1 now2 = ((timerStep s now).1, [])) ∧
    (∀ i : ℤ, 0 ≤ i → i ≤ 3 → (starttimer s i none none now).istimer = true) := by
  refine ⟨?_, ?_, ?_⟩
  · intro hlt
    have hne : pyInt now ≠ pyInt s.workendtime := by
      rw [pyInt_of_nonneg h0, hw, pyInt_intCast]
      intro hEq
      have hle : ((⌊now⌋ : ℤ) : ℚ) ≤ now := Int.floor_le now
      rw [hEq] at hle
      linarith
    simp [timerStep, hne]
  · intro hEq
    have hcond : s.istimer = true ∧ pyInt now = pyInt s.workendtime := by
      rw [hw, pyInt_intCast]; exact ⟨hT, hEq⟩
    have hstep : timerStep s now = breakstart s now := by
      unfold timerStep; rw [if_pos hcond]
    have hbs : breakstart s now =
        ({ s with mediaPlaying := false, breakendtime := pyInt now + s.breaktime,
                  istimer := false, isbreak := true }, [ALARM_SOUND]) := by
      unfold breakstart; rw [if_pos hT]
    rw [hstep, hbs, hEq]
    refine ⟨rfl, rfl, rfl, rfl, rfl, ?_⟩
    intro now2
    exact timerStep_of_not_istimer _ now2 rfl
  · intro i h0i h3i
    have h5 : ¬ i = 5 := by omega
    have h4 : ¬ i = 4 := by omega
    simp [starttimer, h5, h4]

/-- Witness for C1: in the concrete state `st1` (deadline 100, 10-minute
break) a tick at `t = 100` starts the break, with the break deadline at
`700` and the alarm cue fired. -/
theorem C1_amended_witness :
    (timerStep st1 100).1.istimer = false ∧
    (timerStep st1 100).1.isbreak = true ∧
    (timerStep st1 100).1.breakendtime = 100 + st1.breaktime ∧
    (timerStep st1 100).2 = [ALARM_SOUND] := by
  have h := ((C1_amended st1 100 100 rfl (by norm_num [st1, baseState]) (by norm_num)).2.1
    (by decide))
  exact ⟨h.1, h.2.1, h.2.2.1, h.2.2.2.2.1⟩

/-! ## Claim C3: menu navigation -/

/-- Claim C3 counterexample: on the timer menu (length 6) with
`selected_index = 0`, the raw `move(-1)` leaves the index at `-1` (no
wraparound to 5); the following render clamps it back to 0, so
`move(-1)` followed by `move(+1)` ends at index 1, not at the original
index 0. -/
theorem C3_counterexample :
    st3.selectedtimer = 0 ∧
    (menuNav st3 (-1) 0).selectedtimer = -1 ∧
    (moveClamped st3 (-1) 0).selectedtimer = 0 ∧
    (moveClamped (moveClamped st3 (-1) 0) 1 0).selectedtimer = 1 := by decide

theorem clampIdx_mem (i len : ℤ) (hlen : 1 ≤ len) :
    0 ≤ clampIdx i len ∧ clampIdx i len ≤ len - 1 := by
  simp only [clampIdx]
  split_ifs <;> omega

theorem clampIdx_eq_self (i len : ℤ) (h0 : 0 ≤ i) (h1 : i ≤ len - 1) :
    clampIdx i len = i := by
  simp only [clampIdx]
  split_ifs <;> omega

/-- The selected index after one frame of a move on the timer menu. -/
theorem moveClamped_timer_selectedtimer (s : TreeState) (d : ℤ) (now : ℚ)
    (hm : s.currentmenu = "timer") :
    (moveClamped s d now).selectedtimer = clampIdx (s.selectedtimer + d) 6 := by
  have h6 : (timerlist.length : ℤ) = 6 := by norm_num [timerlist]
  simp [moveClamped, menuNav, menudisplayClamp, hm, h6]

/-- The selected index after one frame of a move on the feature menu. -/
theorem moveClamped_feature_selectedtimer (s : TreeState) (d : ℤ) (now : ℚ)
    (hm : s.currentmenu = "feature") :
    (moveClamped s d now).selectedtimer = clampIdx (s.selectedtimer + d) 5 := by
  have h5 : (featurelist.length : ℤ) = 5 := by norm_num [featurelist]
  simp [moveClamped, menuNav, menudisplayClamp, hm, h5]

/-- `moveClamped` does not change the active menu. -/
theorem moveClamped_currentmenu (s : TreeState) (d : ℤ) (now : ℚ) :
    (moveClamped s d now).currentmenu = s.currentmenu := by
  simp only [moveClamped, menudisplayClamp, menuNav]
  split_ifs <;> rfl

/-- Claim C3 (corrected): on either active menu list (`L = 6` entries for
the timer list, `L = 5` for the feature list) the per-frame move clamps
(saturates) the index into `[0, L-1]` instead of wrapping modulo the
length, so the displayed index is never negative and always in range;
`move(k)` followed by `move(-k)` restores the original index when both the
start and end of the excursion stay inside the list, but not in general
(see the counterexample). -/
theorem C3_amended (s : TreeState) (d k L : ℤ) (now now2 : ℚ)
    (hm : (s.currentmenu = "timer" ∧ L = 6) ∨ (s.currentmenu = "feature" ∧ L = 5))
    (h0 : 0 ≤ s.selectedtimer) (h1 : s.selectedtimer ≤ L - 1)
    (hk0 : 0 ≤ s.selectedtimer + k) (hk1 : s.selectedtimer + k ≤ L - 1) :
    (0 ≤ (moveClamped s d now).selectedtimer ∧
     (moveClamped s d now).selectedtimer ≤ L - 1) ∧
    (moveClamped (moveClamped s k now) (-k) now2).selectedtimer = s.selectedtimer := by
  have hsel : ∀ e : ℤ, ∀ t : ℚ, (moveClamped s e t).selectedtimer =
      clampIdx (s.selectedtimer + e) L := by
    intro e t
    rcases hm with ⟨hmenu, hL⟩ | ⟨hmenu, hL⟩
    · rw [moveClamped_timer_selectedtimer s e t hmenu, hL]
    · rw [moveClamped_feature_selectedtimer s e t hmenu, hL]
  have hsel2 : ∀ e : ℤ, ∀ t : ℚ,
      (moveClamped (moveClamped s k now) e t).selectedtimer =
        clampIdx ((moveClamped s k now).selectedtimer + e) L := by
    intro e t
    rcases hm with ⟨hmenu, hL⟩ | ⟨hmenu, hL⟩
    · rw [moveClamped_timer_selectedtimer _ e t (by rw [moveClamped_currentmenu]; exact hmenu),
          hL]
    · rw [moveClamped_feature_selectedtimer _ e t
            (by rw [moveClamped_currentmenu]; exact hmenu), hL]
  have hL1 : 1 ≤ L := by rcases hm with ⟨-, hL⟩ | ⟨-, hL⟩ <;> omega
  refine ⟨?_, ?_⟩
  · rw [hsel d now]
    have := clampIdx_mem (s.selectedtimer + d) L hL1
    omega
  · rw [hsel2 (-k) now2, hsel k now,
        clampIdx_eq_self (s.selectedtimer + k) L hk0 hk1,
        show s.selectedtimer + k + -k = s.selectedtimer from by ring]
    exact clampIdx_eq_self s.selectedtimer L h0 h1

/-- Witness for C3 on both menus: from index 2 on the timer list a move of
`+9` clamps into `[0, 5]` and `move(+3)` then `move(-3)` returns to 2;
from index 2 on the feature list a move of `+9` clamps into `[0, 4]` and
`move(+2)` then `move(-2)` returns to 2. -/
theorem C3_amended_witness :
    ((0 ≤ (moveClamped st3w 9 0).selectedtimer ∧
      (moveClamped st3w 9 0).selectedtimer ≤ 6 - 1) ∧
     (moveClamped (moveClamped st3w 3 0) (-3) 1).selectedtimer = st3w.selectedtimer) ∧
    ((0 ≤ (moveClamped st3f 9 0).selectedtimer ∧
      (moveClamped st3f 9 0).selectedtimer ≤ 5 - 1) ∧
     (moveClamped (moveClamped st3f 2 0) (-2) 1).selectedtimer = st3f.selectedtimer) :=
  ⟨C3_amended st3w 9 3 6 0 1 (Or.inl ⟨rfl, rfl⟩)
      (by decide) (by decide) (by decide) (by decide),
   C3_amended st3f 9 2 5 0 1 (Or.inr ⟨rfl, rfl⟩)
      (by decide) (by decide) (by decide) (by decide)⟩

/-! ## Claim C2: the growth-tier mapping -/

theorem indicatorMono {a b : ℚ} (h : a ≤ b) (t : ℚ) :
    (if t ≤ a then (1 : ℕ) else 0) ≤ (if t ≤ b then 1 else 0) := by
  split_ifs with h1 h2 <;> first | omega | exact absurd (h1.trans h) h2

theorem bandIdx_mono {a b : ℚ} (h : a ≤ b) : bandIdx a ≤ bandIdx b := by
  have k1 := indicatorMono h 1
  have k5 := indicatorMono h 5
  have k10 := indicatorMono h 10
  have k20 := indicatorMono h 20
  have k30 := indicatorMono h 30
  have k40 := indicatorMono h 40
  have k70 := indicatorMono h 70
  have k120 := indicatorMono h 120
  have k200 := indicatorMono h 200
  unfold bandIdx
  omega

theorem one_le_bandIdx {a : ℚ} (h : 1 ≤ a) : 1 ≤ bandIdx a := by
  have e1 : (if (1 : ℚ) ≤ a then (1 : ℕ) else 0) = 1 := if_pos h
  unfold bandIdx
  omega

theorem bandIdx_le_nine (a : ℚ) : bandIdx a ≤ 9 := by
  have hb : ∀ t : ℚ, (if t ≤ a then (1 : ℕ) else 0) ≤ 1 := by
    intro t; split_ifs <;> omega
  have k1 := hb 1
  have k5 := hb 5
  have k10 := hb 10
  have k20 := hb 20
  have k30 := hb 30
  have k40 := hb 40
  have k70 := hb 70
  have k120 := hb 120
  have k200 := hb 200
  unfold bandIdx
  omega

/-- For ages `≥ 1`, `tree.display` picks exactly the art file of the band
the age falls in: the file is always assigned and its ladder position is
`bandIdx`. -/
theorem displayArtfile_char (a : ℚ) (h1 : 1 ≤ a) :
    artIndex (displayArtfile none a) = bandIdx a ∧ (displayArtfile none a).isSome = true := by
  rcases lt_or_le a 5 with hu | hl5
  · simp [displayArtfile, artIndex, bandIdx, h1, hu,
      show ¬ (5:ℚ) ≤ a from not_le.mpr hu,
      show ¬ (10:ℚ) ≤ a from not_le.mpr (by linarith),
      show ¬ (20:ℚ) ≤ a from not_le.mpr (by linarith),
      show ¬ (30:ℚ) ≤ a from not_le.mpr (by linarith),
      show ¬ (40:ℚ) ≤ a from not_le.mpr (by linarith),
      show ¬ (70:ℚ) ≤ a from not_le.mpr (by linarith),
      show ¬ (120:ℚ) ≤ a from not_le.mpr (by linarith),
      show ¬ (200:ℚ) ≤ a from not_le.mpr (by linarith)]
  · rcases lt_or_le a 10 with hu | hl10
    · simp [displayArtfile, artIndex, bandIdx, h1, hl5, hu,
        show ¬ a < 5 from not_lt.mpr hl5,
        show ¬ (10:ℚ) ≤ a from not_le.mpr hu,
        show ¬ (20:ℚ) ≤ a from not_le.mpr (by linarith),
        show ¬ (30:ℚ) ≤ a from not_le.mpr (by linarith),
        show ¬ (40:ℚ) ≤ a from not_le.mpr (by linarith),
        show ¬ (70:ℚ) ≤ a from not_le.mpr (by linarith),
        show ¬ (120:ℚ) ≤ a from not_le.mpr (by linarith),
        show ¬ (200:ℚ) ≤ a from not_le.mpr (by linarith)]
    · rcases lt_or_le a 20 with hu | hl20
      · simp [displayArtfile, artIndex, bandIdx, h1, hl5, hl10, hu,
          show ¬ a < 5 from not_lt.mpr hl5,
          show ¬ a < 10 from not_lt.mpr hl10,
          show ¬ (20:ℚ) ≤ a from not_le.mpr hu,
          show ¬ (30:ℚ) ≤ a from not_le.mpr (by linarith),
          show ¬ (40:ℚ) ≤ a from not_le.mpr (by linarith),
          show ¬ (70:ℚ) ≤ a from not_le.mpr (by linarith),
          show ¬ (120:ℚ) ≤ a from not_le.mpr (by linarith),
          show ¬ (200:ℚ) ≤ a from not_le.mpr (by linarith)]
      · rcases lt_or_le a 30 with hu | hl30
        · simp [displayArtfile, artIndex, bandIdx, h1, hl5, hl10, hl20, hu,
            show ¬ a < 5 from not_lt.mpr hl5,
            show ¬ a < 10 from not_lt.mpr hl10,
            show ¬ a < 20 from not_lt.mpr hl20,
            show ¬ (30:ℚ) ≤ a from not_le.mpr hu,
            show ¬ (40:ℚ) ≤ a from not_le.mpr (by linarith),
            show ¬ (70:ℚ) ≤ a from not_le.mpr (by linarith),
            show ¬ (120:ℚ) ≤ a from not_le.mpr (by linarith),
            show ¬ (200:ℚ) ≤ a from not_le.mpr (by linarith)]
        · rcases lt_or_le a 40 with hu | hl40
          · simp [displayArtfile, artIndex, bandIdx, h1, hl5, hl10, hl20, hl30, hu,
              show ¬ a < 5 from not_lt.mpr hl5,
              show ¬ a < 10 from not_lt.mpr hl10,
              show ¬ a < 20 from not_lt.mpr hl20,
              show ¬ a < 30 from not_lt.mpr hl30,
              show ¬ (40:ℚ) ≤ a from not_le.mpr hu,
              show ¬ (70:ℚ) ≤ a from not_le.mpr (by linarith),
              show ¬ (120:ℚ) ≤ a from not_le.mpr (by linarith),
              show ¬ (200:ℚ) ≤ a from not_le.mpr (by linarith)]
          · rcases lt_or_le a 70 with hu | hl70
            · simp [displayArtfile, artIndex, bandIdx, h1, hl5, hl10, hl20, hl30, hl40, hu,
                show ¬ a < 5 from not_lt.mpr hl5,
                show ¬ a < 10 from not_lt.mpr hl10,
                show ¬ a < 20 from not_lt.mpr hl20,
                show ¬ a < 30 from not_lt.mpr hl30,
                show ¬ a < 40 from not_lt.mpr hl40,
                show ¬ (70:ℚ) ≤ a from not_le.mpr hu,
                show ¬ (120:ℚ) ≤ a from not_le.mpr (by linarith),
                show ¬ (200:ℚ) ≤ a from not_le.mpr (by linarith)]
            · rcases lt_or_le a 120 with hu | hl120
              · simp [displayArtfile, artIndex, bandIdx, h1, hl5, hl10, hl20, hl30, hl40,
                  hl70, hu,
                  show ¬ a < 5 from not_lt.mpr hl5,
                  show ¬ a < 10 from not_lt.mpr hl10,
                  show ¬ a < 20 from not_lt.mpr hl20,
                  show ¬ a < 30 from not_lt.mpr hl30,
                  show ¬ a < 40 from not_lt.mpr hl40,
                  show ¬ a < 70 from not_lt.mpr hl70,
                  show ¬ (120:ℚ) ≤ a from not_le.mpr hu,
                  show ¬ (200:ℚ) ≤ a from not_le.mpr (by linarith)]
              · rcases lt_or_le a 200 with hu | hl200
                · simp [displayArtfile, artIndex, bandIdx, h1, hl5, hl10, hl20, hl30, hl40,
                    hl70, hl120, hu,
                    show ¬ a < 5 from not_lt.mpr hl5,
                    show ¬ a < 10 from not_lt.mpr hl10,
                    show ¬ a < 20 from not_lt.mpr hl20,
                    show ¬ a < 30 from not_lt.mpr hl30,
                    show ¬ a < 40 from not_lt.mpr hl40,
                    show ¬ a < 70 from not_lt.mpr hl70,
                    show ¬ a < 120 from not_lt.mpr hl120,
                    show ¬ (200:ℚ) ≤ a from not_le.mpr hu]
                · simp [displayArtfile, artIndex, bandIdx, h1, hl5, hl10, hl20, hl30, hl40,
                    hl70, hl120, hl200,
                    show ¬ a < 5 from not_lt.mpr hl5,
                    show ¬ a < 10 from not_lt.mpr hl10,
                    show ¬ a < 20 from not_lt.mpr hl20,
                    show ¬ a < 30 from not_lt.mpr hl30,
                    show ¬ a < 40 from not_lt.mpr hl40,
                    show ¬ a < 70 from not_lt.mpr hl70,
                    show ¬ a < 120 from not_lt.mpr hl120,
                    show ¬ a < 200 from not_lt.mpr hl200]

/-- Claim C2 counterexample: the mapping is not total on non-negative ages.
At `age = 0` (also anywhere in `[0, 1)`) none of the guards in
`tree.display` fires, so no art file is assigned — the age maps to no band
at all (on the very first frame this is an `AttributeError`). -/
theorem C2_counterexample :
    (0 : ℚ) ≤ 0 ∧ displayArtfile none 0 = none ∧ artIndex (displayArtfile none 0) = 0 := by
  decide

/-- Claim C2 (corrected): restricted to ages `≥ 1` the visualisation tier
is a pure, deterministic step function of age into the nine ordered bands
(half-open intervals, no gaps on `[1, ∞)`), and the band index is
non-decreasing in age; ages in `[0, 1)` are covered by no band, so the
mapping is total only from `age = 1` up. -/
theorem C2_amended (a b : ℚ) (h1 : 1 ≤ a) (hab : a ≤ b) :
    (displayArtfile none a).isSome = true ∧ (displayArtfile none b).isSome = true ∧
    1 ≤ artIndex (displayArtfile none a) ∧ artIndex (displayArtfile none a) ≤ 9 ∧
    artIndex (displayArtfile none a) ≤ artIndex (displayArtfile none b) := by
  obtain ⟨ha, ha2⟩ := displayArtfile_char a h1
  obtain ⟨hb, hb2⟩ := displayArtfile_char b (h1.trans hab)
  refine ⟨ha2, hb2, ?_, ?_, ?_⟩
  · rw [ha]; exact one_le_bandIdx h1
  · rw [ha]; exact bandIdx_le_nine a
  · rw [ha, hb]; exact bandIdx_mono hab

/-- Witness for C2 at the concrete ages 1 and 500 (the extreme test ages of
the specification). -/
theorem C2_amended_witness :
    (displayArtfile none 1).isSome = true ∧ (displayArtfile none 500).isSome = true ∧
    1 ≤ artIndex (displayArtfile none 1) ∧ artIndex (displayArtfile none 1) ≤ 9 ∧
    artIndex (displayArtfile none 1) ≤ artIndex (displayArtfile none 500) :=
  C2_amended 1 500 (by norm_num) (by norm_num)

end WisdomTree
